import Mathlib

/-!
# Verification of the Odoo operator (bemade/helm-charts, src/odoo-operator/python/operator.py)

A shallow embedding of the operator's reconciliation, synthesis, database
lifecycle and admission logic, together with theorems settling the frozen
claims about it.

Conventions of the embedding:
* Python strings are Lean `String`s; Python slicing `s[:63]` is
  `⟨s.data.take 63⟩`.
* A Python dict key that may be absent is an `Option`; `d.get(k, default)` is
  `Option.getD`.
* Kubernetes client calls raise `ApiException` carrying an HTTP status code;
  a call outcome is `Option Nat` (`none` = success, `some e` = exception with
  status `e`).  Store faults beyond the honest conflict/not-found responses
  are injected through explicit `Fault` parameters so the handlers'
  `try/except` classification can be stated for arbitrary errors.
* `operator.py` defines `create_deployment`, `create_service` and
  `create_ingress` twice; Python binds the name to the later definition, so
  the later one is what the create/update paths execute.  Both variants are
  embedded: the effective (later) definition carries the source name, the
  silently shadowed earlier definition carries a `_shadowed` suffix.
* Fallible handlers return `Except`.
-/

namespace OdooOperator

/-- Python truthiness of an optional string: `not s` holds for a missing key
and for the empty string. -/
def pyFalsyStr (s : Option String) : Bool :=
  s = none || s = some ""

/-! ## Database identity derivation (lines 1680-1708) -/

/-- Model of `generate_db_name` (lines 1680-1693):
`f'odoo_{namespace}_{instance_name}'[:63]`. -/
def generate_db_name (instance_name ns : String) : String :=
  ⟨("odoo_" ++ ns ++ "_" ++ instance_name).data.take 63⟩

/-- Model of `generate_db_username` (lines 1695-1708):
`f'odoo_user_{namespace}_{instance_name}'[:63]`. -/
def generate_db_username (instance_name ns : String) : String :=
  ⟨("odoo_user_" ++ ns ++ "_" ++ instance_name).data.take 63⟩

/-! ## Cluster object applier (the try/except around each store call) -/

/-- Kinds of dependent cluster objects the operator manages. -/
inductive ResourceKind
  | pvc
  | configMap
  | secret
  | deployment
  | service
  | ingress
deriving DecidableEq, Repr

/-- The cluster store as observed through create/read calls: the set of
(kind, name) pairs that currently exist. -/
abbrev KubeStore := List (ResourceKind × String)

/-- An injected store failure: `some e` makes the next client call raise
`ApiException` with HTTP status `e`; `none` lets the honest store answer. -/
abbrev Fault := Option Nat

/-- Store contract for `create_namespaced_*`: on an honest store, creating an
existing object raises 409 (conflict) and mutates nothing, otherwise the
object is inserted; an injected fault raises its status with no mutation. -/
def k8sCreate (s : KubeStore) (fault : Fault) (k : ResourceKind) (n : String) :
    KubeStore × Option Nat :=
  match fault with
  | some e => (s, some e)
  | none => if (k, n) ∈ s then (s, some 409) else ((k, n) :: s, none)

/-- Store contract for `read_namespaced_*`: reading a missing object raises
404, otherwise the read succeeds; an injected fault raises its status. -/
def k8sRead (s : KubeStore) (fault : Fault) (k : ResourceKind) (n : String) :
    Option Nat :=
  match fault with
  | some e => some e
  | none => if (k, n) ∈ s then none else some 404

/-- The create-side try/except idiom shared verbatim by every `create_*`
function in the source: attempt the create; `except ApiException` with
status 409 logs "already exists, skipping creation" and returns normally
(success, no mutation); any other status is re-raised. -/
def applyCreate (k : ResourceKind) (n : String) (s : KubeStore) (fault : Fault) :
    Except Nat KubeStore :=
  match k8sCreate s fault k n with
  | (s', none) => .ok s'
  | (s', some e) => if e = 409 then .ok s' else .error e

/-- Store interaction of `create_filestore_pvc` (lines 577-639): create the
PVC `odoo-filestore-<name>`, treating 409 as success. -/
def create_filestore_pvc (name : String) : KubeStore → Fault → Except Nat KubeStore :=
  applyCreate .pvc ("odoo-filestore-" ++ name)

/-- Store interaction of `create_config_map` (lines 441-506): create the
ConfigMap `odoo-config-<name>`, treating 409 as success. -/
def create_config_map (name : String) : KubeStore → Fault → Except Nat KubeStore :=
  applyCreate .configMap ("odoo-config-" ++ name)

/-- Store interaction of `create_db_credentials_secret` (lines 1617-1678):
create the Secret `odoo-db-credentials-<name>`, treating 409 as success
(the content-level model is `create_db_credentials_secret` below). -/
def create_db_credentials_secret_apply (name : String) :
    KubeStore → Fault → Except Nat KubeStore :=
  applyCreate .secret ("odoo-db-credentials-" ++ name)

/-- Store interaction of the effective `create_deployment` (lines 1098-1259):
create the Deployment named `<name>`, treating 409 as success. -/
def create_deployment_apply (name : String) : KubeStore → Fault → Except Nat KubeStore :=
  applyCreate .deployment name

/-- Store interaction of the effective `create_service` (lines 1305-1367):
create the Service named `<name>`, treating 409 as success. -/
def create_service_apply (name : String) : KubeStore → Fault → Except Nat KubeStore :=
  applyCreate .service name

/-- Store interaction of the effective `create_ingress` (lines 1369-1452):
create the Ingress named `<name>`, treating 409 as success. -/
def create_ingress_apply (name : String) : KubeStore → Fault → Except Nat KubeStore :=
  applyCreate .ingress name

/-- Model of `update_config_map` (lines 508-541): inside one try-block, read
the ConfigMap `odoo-config-<name>` and patch the unchanged body back; a 404
escaping the try-block falls back to `create_config_map`; any other status
is re-raised.  `fr`, `fp`, `fc` inject faults into the read, the patch and
the fallback create. -/
def update_config_map (name : String) (s : KubeStore) (fr fp fc : Fault) :
    Except Nat KubeStore :=
  let attempt : Option Nat :=
    match k8sRead s fr .configMap ("odoo-config-" ++ name) with
    | some e => some e
    | none => fp
  match attempt with
  | none => .ok s
  | some e => if e = 404 then create_config_map name s fc else .error e

/-- Model of `update_deployment` (lines 1261-1303): read the Deployment
`<name>` and patch the updated body; a 404 falls back to the (effective)
`create_deployment`; any other status is re-raised. -/
def update_deployment (name : String) (s : KubeStore) (fr fp fc : Fault) :
    Except Nat KubeStore :=
  let attempt : Option Nat :=
    match k8sRead s fr .deployment name with
    | some e => some e
    | none => fp
  match attempt with
  | none => .ok s
  | some e => if e = 404 then create_deployment_apply name s fc else .error e

/-- Model of `update_service` (lines 543-575): read the Service
`odoo-<name>` (the patch call is commented out in the source); a 404 falls
back to the (effective) `create_service`, which creates the Service named
`<name>`; any other status is re-raised. -/
def update_service (name : String) (s : KubeStore) (fr fc : Fault) :
    Except Nat KubeStore :=
  match k8sRead s fr .service ("odoo-" ++ name) with
  | none => .ok s
  | some e => if e = 404 then create_service_apply name s fc else .error e

/-- Model of `update_ingress` (lines 1454-1504): read the Ingress `<name>`
and patch the updated body; a 404 falls back to the (effective)
`create_ingress`; any other status is re-raised. -/
def update_ingress (name : String) (s : KubeStore) (fr fp fc : Fault) :
    Except Nat KubeStore :=
  let attempt : Option Nat :=
    match k8sRead s fr .ingress name with
    | some e => some e
    | none => fp
  match attempt with
  | none => .ok s
  | some e => if e = 404 then create_ingress_apply name s fc else .error e

/-! ## Ingress synthesis (two definitions of `create_ingress`) -/

/-- Ingress block of a specification (`spec['ingress']`), with the source's
`.get` defaults for `enabled` and `tls`. -/
structure IngressSpec where
  enabled : Bool := true
  hostname : Option String := none
  className : Option String := none
  tls : Bool := true
  tlsSecret : Option String := none
deriving DecidableEq, Repr

/-- One entry of a synthesized Ingress `spec.tls` list.  The host slots hold
`Option String` because the effective `create_ingress` can put a missing
hostname (Python `None`) there. -/
structure IngressTLS where
  hosts : List (Option String)
  secretName : String
deriving DecidableEq, Repr

/-- The parts of a synthesized Ingress object the claims are about. -/
structure IngressDescriptor where
  name : String
  ruleHost : Option String
  tls : List IngressTLS
deriving DecidableEq, Repr

/-- Model of the earlier `create_ingress` definition (lines 991-1090), which
is silently shadowed by the later one.  If the hostname is missing
(Python-falsy) it logs a warning and synthesizes nothing; otherwise it
synthesizes one Ingress `odoo-<name>` and, when TLS is enabled, one TLS
entry for the hostname with secret `tlsSecret` (when truthy) or the default
`odoo-<name>-tls`.  Returns (synthesized Ingress objects, logged warnings). -/
def create_ingress_shadowed (name : String) (ing : IngressSpec) :
    List IngressDescriptor × List String :=
  if pyFalsyStr ing.hostname then
    ([], ["Ingress hostname not specified for " ++ name ++ ", skipping ingress creation"])
  else
    let secretName := if pyFalsyStr ing.tlsSecret then "odoo-" ++ name ++ "-tls"
                      else ing.tlsSecret.getD ""
    let tlsList := if ing.tls then [{ hosts := [ing.hostname], secretName := secretName }]
                   else ([] : List IngressTLS)
    ([{ name := "odoo-" ++ name, ruleHost := ing.hostname, tls := tlsList }], [])

/-- Model of the later, effective `create_ingress` definition (lines
1369-1452) — the one the create and update paths actually invoke.  It has no
hostname check: it always synthesizes exactly one Ingress named `<name>`
whose rule host is the (possibly missing) hostname, with one TLS entry for
that host when TLS is enabled (secret `tlsSecret`, defaulting to
`<name>-tls`), and it logs no warning. -/
def create_ingress (name : String) (ing : IngressSpec) : List IngressDescriptor :=
  let tlsList := if ing.tls then
      [{ hosts := [ing.hostname], secretName := ing.tlsSecret.getD (name ++ "-tls") }]
    else ([] : List IngressTLS)
  [{ name := name, ruleHost := ing.hostname, tls := tlsList }]

/-! ## Deployment environment synthesis (two definitions of `create_deployment`) -/

/-- A container environment entry: either a literal value or a
`valueFrom.secretKeyRef` (secret name, key). -/
structure EnvVar where
  name : String
  value : Option String := none
  secretKeyRef : Option (String × String) := none
deriving DecidableEq, Repr

/-- The six base entries the earlier `create_deployment` (lines 672-730)
inserts before overlaying the custom entries: five database-connection
references into the keys of `odoo-db-credentials-<name>` and one
admin-password reference into the instance's `adminSecret` name/key or the
fleet defaults. -/
def base_env (instName : String) (adminSecretName adminSecretKey : Option String) :
    List EnvVar :=
  [ { name := "ODOO_DB_HOST", secretKeyRef := some ("odoo-db-credentials-" ++ instName, "host") },
    { name := "ODOO_DB_PORT", secretKeyRef := some ("odoo-db-credentials-" ++ instName, "port") },
    { name := "ODOO_DB_USER", secretKeyRef := some ("odoo-db-credentials-" ++ instName, "username") },
    { name := "ODOO_DB_PASSWORD", secretKeyRef := some ("odoo-db-credentials-" ++ instName, "password") },
    { name := "ODOO_DB_NAME", secretKeyRef := some ("odoo-db-credentials-" ++ instName, "database") },
    { name := "ODOO_ADMIN_PASSWORD",
      secretKeyRef := some (adminSecretName.getD "odoo-admin-credentials",
                            adminSecretKey.getD "admin-password") } ]

/-- Overlay loop of the earlier `create_deployment` (lines 732-740): for each
custom entry in list order, remove the first existing entry with the same
name (if any) and append the custom entry at the end. -/
def overlay_env (env : List EnvVar) : List EnvVar → List EnvVar
  | [] => env
  | v :: rest =>
      overlay_env
        ((if env.any (fun e => e.name = v.name)
          then env.eraseP (fun e => e.name = v.name) else env) ++ [v]) rest

/-- Container environment built by the earlier, shadowed `create_deployment`
(lines 672-740): the six base entries overlaid with the custom entries. -/
def create_deployment_env_shadowed (instName : String)
    (adminSecretName adminSecretKey : Option String) (custom : List EnvVar) :
    List EnvVar :=
  overlay_env (base_env instName adminSecretName adminSecretKey) custom

/-- Container environment of the later, effective `create_deployment` (line
1119, used at line 1185): `env = spec.get('env', [])`, used verbatim — no
database-connection entries, no admin-password entry, no overlay. -/
def create_deployment_env (spec_env : Option (List EnvVar)) : List EnvVar :=
  spec_env.getD []

/-! ## Admission gate (validation and defaulting, lines 1722-1946) -/

/-- Limits or requests block: optional memory and cpu quantity strings. -/
structure LimitsBlock where
  memory : Option String := none
  cpu : Option String := none
deriving DecidableEq, Repr

/-- A resources block as admission sees it. -/
structure ResourcesBlock where
  limits : Option LimitsBlock := none
  requests : Option LimitsBlock := none
deriving DecidableEq, Repr

/-- Ingress block as the defaulting pass sees it (`mutate_odoo_instance` only
reads and writes its `tls` member). -/
structure IngressAdm where
  tls : Option Bool := none
deriving DecidableEq, Repr

/-- The specification fields admission (validation and defaulting) reads.
`image = some ""` models a present-but-falsy image value. -/
structure OdooSpecAdm where
  version : Option String := none
  image : Option String := none
  replicas : Option Int := none
  ingress : Option IngressAdm := none
  resources : Option ResourcesBlock := none
deriving DecidableEq, Repr

/-- An incoming OdooInstance object as admission sees it. -/
structure OdooInstanceAdm where
  spec : Option OdooSpecAdm := none
deriving DecidableEq, Repr

/-- The resources defaults `mutate_odoo_instance` fills in (lines 1793-1803). -/
def defaultResources : ResourcesBlock :=
  { limits := some { memory := some "512Mi", cpu := some "500m" },
    requests := some { memory := some "256Mi", cpu := some "250m" } }

/-- Model of `mutate_odoo_instance` (lines 1767-1805): ensure a spec block
exists, default `replicas` to 1 when absent, ensure an ingress block and
default its `tls` to true when absent, and fill the standard resources block
when entirely absent.  In the source this mutates `instance` in place and
returns that same object. -/
def mutate_odoo_instance (inst : OdooInstanceAdm) : OdooInstanceAdm :=
  let spec := inst.spec.getD {}
  let spec := if spec.replicas = none then { spec with replicas := some 1 } else spec
  let ingress := spec.ingress.getD {}
  let ingress := if ingress.tls = none then { ingress with tls := some true } else ingress
  let spec := { spec with ingress := some ingress }
  let spec := if spec.resources = none then { spec with resources := some defaultResources }
              else spec
  { spec := some spec }

/-- JSON values that can appear in an admission patch for this shape. -/
inductive JsonValue
  | jint (n : Int)
  | jbool (b : Bool)
  | jstr (s : String)
  | jspec (s : OdooSpecAdm)
  | jingress (i : IngressAdm)
  | jres (r : ResourcesBlock)
deriving DecidableEq, Repr

/-- A JSON-patch operation as forwarded to the API server (lines 1913-1919). -/
inductive PatchOp
  | add (path : String) (value : JsonValue)
  | replace (path : String) (value : JsonValue)
deriving DecidableEq, Repr

/-- Field-level diff for one optional member: an op only where source and
destination differ (the defaulting pass never removes members). -/
def diffOpt {α : Type} [DecidableEq α] (path : String) (enc : α → JsonValue)
    (src dst : Option α) : List PatchOp :=
  match src, dst with
  | none, some v => [.add path (enc v)]
  | some a, some b => if a = b then [] else [.replace path (enc b)]
  | _, none => []

/-- Model of `jsonpatch.make_patch` restricted to this object shape: a
field-level structural diff of the two documents.  On identical documents it
produces no operations. -/
def make_patch (src dst : OdooInstanceAdm) : List PatchOp :=
  match src.spec, dst.spec with
  | none, some s => [.add "/spec" (.jspec s)]
  | some a, some b =>
      diffOpt "/spec/version" .jstr a.version b.version
      ++ diffOpt "/spec/image" .jstr a.image b.image
      ++ diffOpt "/spec/replicas" .jint a.replicas b.replicas
      ++ (match a.ingress, b.ingress with
          | none, some i => [.add "/spec/ingress" (.jingress i)]
          | some ai, some bi => diffOpt "/spec/ingress/tls" .jbool ai.tls bi.tls
          | _, none => [])
      ++ diffOpt "/spec/resources" .jres a.resources b.resources
  | _, none => []

/-- Interpretation of one patch operation on an instance document. -/
def applyOp (inst : OdooInstanceAdm) (op : PatchOp) : OdooInstanceAdm :=
  let set (p : String) (v : JsonValue) : OdooInstanceAdm :=
    if p = "/spec" then
      match v with
      | .jspec s => { inst with spec := some s }
      | _ => inst
    else
      match inst.spec with
      | none => inst
      | some s =>
        if p = "/spec/version" then
          match v with
          | .jstr x => { inst with spec := some { s with version := some x } }
          | _ => inst
        else if p = "/spec/image" then
          match v with
          | .jstr x => { inst with spec := some { s with image := some x } }
          | _ => inst
        else if p = "/spec/replicas" then
          match v with
          | .jint n => { inst with spec := some { s with replicas := some n } }
          | _ => inst
        else if p = "/spec/ingress" then
          match v with
          | .jingress i => { inst with spec := some { s with ingress := some i } }
          | _ => inst
        else if p = "/spec/ingress/tls" then
          match v, s.ingress with
          | .jbool b, some i =>
              { inst with spec := some { s with ingress := some { i with tls := some b } } }
          | _, _ => inst
        else if p = "/spec/resources" then
          match v with
          | .jres r => { inst with spec := some { s with resources := some r } }
          | _ => inst
        else inst
  match op with
  | .add p v => set p v
  | .replace p v => set p v

/-- Application of a JSON patch to an instance document, operation by
operation. -/
def apply_patch (ops : List PatchOp) (inst : OdooInstanceAdm) : OdooInstanceAdm :=
  ops.foldl applyOp inst

/-- The patch computed by `mutate_odoo_instance_webhook` (lines 1876-1932).
The source computes `jsonpatch.make_patch(instance, mutated_instance)`, but
`mutate_odoo_instance` mutated `instance` in place and returned that same
object, so both arguments of `make_patch` are the already-defaulted
document. -/
def mutate_odoo_instance_webhook_patch (inst : OdooInstanceAdm) : List PatchOp :=
  make_patch (mutate_odoo_instance inst) (mutate_odoo_instance inst)

/-- Classified outcome of `validate_odoo_instance`: accept, an explicit
rejection with a reason, or an uncaught Python exception escaping the
function. -/
inductive ValidationOutcome
  | accept
  | reject (reason : String)
  | pyError (msg : String)
deriving DecidableEq, Repr

/-- The resources check of `validate_odoo_instance` (lines 1756-1763).  The
source calls `re.match` on a provided memory or cpu limit string, but
`operator.py` never imports `re`, so reaching either check raises
`NameError: name 're' is not defined` (modeled as `pyError`); the regexes
are unreachable. -/
def validate_resources (spec : OdooSpecAdm) : ValidationOutcome :=
  match spec.resources with
  | none => .accept
  | some res =>
    match res.limits with
    | none => .accept
    | some l =>
      if l.memory ≠ none then .pyError "name 're' is not defined"
      else if l.cpu ≠ none then .pyError "name 're' is not defined"
      else .accept

/-- Model of `validate_odoo_instance` (lines 1726-1765), checks in source
order: missing/empty version, present-but-empty image, replicas below 1,
then the resources check. -/
def validate_odoo_instance (inst : OdooInstanceAdm) : ValidationOutcome :=
  let spec := inst.spec.getD {}
  if pyFalsyStr spec.version then
    .reject "'version' is required in the OdooInstance spec"
  else if spec.image = some "" then
    .reject "'image' cannot be empty if specified"
  else
    match spec.replicas with
    | some r =>
        if r < 1 then .reject "'replicas' must be at least 1"
        else validate_resources spec
    | none => validate_resources spec

/-- Allowed flag and status message returned by the validating webhook
(lines 1807-1874): a rejection yields allowed=false with the reason; an
escaping Python exception is caught and also yields allowed=false, with an
error message wrapping the exception text. -/
def validate_odoo_instance_webhook (inst : OdooInstanceAdm) : Bool × Option String :=
  match validate_odoo_instance inst with
  | .accept => (true, none)
  | .reject m => (false, some m)
  | .pyError m => (false, some ("Error validating OdooInstance: " ++ m))

/-! ## Database lifecycle manager (lines 1506-1678) -/

/-- Fleet database connection parameters resolved from the environment
(lines 36-37, default values). -/
def DB_HOST : String := "postgres"

/-- Default database port from the environment (line 37). -/
def DB_PORT : String := "5432"

/-- Decoded contents of the mirrored credential secret.  Each value is
individually base64-encoded in the source (lines 1658-1665); the injective
per-key encoding is modeled by the identity. -/
structure SecretData where
  host : String
  port : String
  username : String
  password : String
  database : Option String := none
deriving DecidableEq, Repr

/-- The cluster's secrets, by name. -/
abbrev SecretStore := List (String × SecretData)

/-- Content-level model of `create_db_credentials_secret` (lines 1617-1678):
build the secret `odoo-db-credentials-<name>` with host, port, username,
password and (when given) database as separate keys and CREATE it; a 409
conflict (the secret already exists) is logged and skipped — the existing
secret is left untouched, there is no update path. -/
def create_db_credentials_secret (name : String) (db_user db_password : String)
    (db_name : Option String) (secrets : SecretStore) : SecretStore :=
  let secretName := "odoo-db-credentials-" ++ name
  if secrets.any (fun kv => kv.1 = secretName) then secrets
  else
    (secretName,
     { host := DB_HOST, port := DB_PORT, username := db_user,
       password := db_password, database := db_name }) :: secrets

/-- External database state: role name → current password, database name →
owning role. -/
structure DbState where
  roles : List (String × String) := []
  databases : List (String × String) := []
deriving DecidableEq, Repr

/-- Model of `create_database_user` (lines 1506-1615) on its success path:
derive the identity; create the role with the given password or, when it
exists, unconditionally reset its password; create the database owned by the
role or, when it exists, reassign its owner; then call
`create_db_credentials_secret`.  The caller supplies `db_password` (the
source generates a random one when it is not given).  Returns the new
external state, the new secret store, and the (user, password, name) triple
the source returns. -/
def create_database_user (name ns db_password : String) (db : DbState)
    (secrets : SecretStore) : DbState × SecretStore × (String × String × String) :=
  let db_name := generate_db_name name ns
  let db_user := generate_db_username name ns
  let roles :=
    if db.roles.any (fun r => r.1 = db_user) then
      db.roles.map (fun r => if r.1 = db_user then (r.1, db_password) else r)
    else (db_user, db_password) :: db.roles
  let databases :=
    if db.databases.any (fun d => d.1 = db_name) then
      db.databases.map (fun d => if d.1 = db_name then (d.1, db_user) else d)
    else (db_name, db_user) :: db.databases
  let secrets' := create_db_credentials_secret name db_user db_password (some db_name) secrets
  ({ roles := roles, databases := databases }, secrets', (db_user, db_password, db_name))

/-! ## Reconciliation controller status handling (lines 143-375) -/

/-- Observed status subresource.  `url` uses `none` for absent-or-null. -/
structure OdooStatus where
  phase : Option String := none
  ready : Option Bool := none
  url : Option String := none
  message : Option String := none
deriving DecidableEq, Repr

/-- One status patch: a key present in the Python patch dict is `some`; for
`url` the present value may itself be null. -/
structure StatusPatch where
  phase : Option String := none
  ready : Option Bool := none
  url : Option (Option String) := none
  message : Option String := none
deriving DecidableEq, Repr

/-- Model of `patch_status` (lines 341-375): read the current status, update
it with the patch dict (present keys overwrite, absent keys are preserved),
and write the merged object back. -/
def patch_status (current : OdooStatus) (p : StatusPatch) : OdooStatus :=
  { phase := match p.phase with | some v => some v | none => current.phase,
    ready := match p.ready with | some v => some v | none => current.ready,
    url := match p.url with | some v => v | none => current.url,
    message := match p.message with | some v => some v | none => current.message }

/-- Result a kopf handler hands back to the dispatcher: a success payload or
a raised `kopf.PermanentError`. -/
inductive HandlerResult
  | success (message : String)
  | permanentError (message : String)
deriving DecidableEq, Repr

/-- Status URL computed by the update handler (lines 188-198): set only when
ingress is enabled and a hostname is truthy, with the scheme chosen by the
TLS flag. -/
def status_url (ing : Option IngressSpec) : Option String :=
  let i := ing.getD {}
  if i.enabled then
    match i.hostname with
    | some h => if h = "" then none else some ((if i.tls then "https" else "http") ++ "://" ++ h)
    | none => none
  else none

/-- Model of `update_odoo_instance` (lines 143-232): patch status to
Updating, run the resource-apply block (config map, deployment, service,
ingress — abstracted by its outcome `applyResult`, carrying the
`ApiException` text on failure), then patch status to Running/ready with the
refreshed url on success, or to Failed with the failure message on failure
(raising a permanent error).  Returns the final stored status and the
handler result. -/
def update_odoo_instance (pre : OdooStatus) (ing : Option IngressSpec)
    (applyResult : Except String Unit) : OdooStatus × HandlerResult :=
  let s₁ := patch_status pre { phase := some "Updating", message := some "Updating resources" }
  match applyResult with
  | .ok _ =>
      (patch_status s₁
        { phase := some "Running", ready := some true,
          url := some (status_url ing),
          message := some "Odoo instance updated successfully" },
       .success "Odoo instance updated successfully")
  | .error e =>
      (patch_status s₁
        { phase := some "Failed", message := some ("Error updating resources: " ++ e) },
       .permanentError ("Error updating resources: " ++ e))

/-- Model of `delete_odoo_instance` (lines 234-339): the database cleanup
(admin secret read, connection, terminate/drop statements) runs inside a
try-block whose `except Exception` only logs warnings; the handler then
returns success unconditionally.  `cleanupResult` is the outcome of the
cleanup block; the returned pair is (handler result, logged warnings). -/
def delete_odoo_instance (cleanupResult : Except String Unit) :
    HandlerResult × List String :=
  match cleanupResult with
  | .ok _ => (.success "Odoo instance deleted successfully", [])
  | .error e =>
      (.success "Odoo instance deleted successfully",
       ["Failed to clean up database user and database: " ++ e,
        "Continuing with deletion, but database resources may not be fully cleaned up"])

/-! ## Helper lemmas about the shared applier idiom -/

theorem applyCreate_conflict (k : ResourceKind) (n : String) (s : KubeStore) :
    applyCreate k n s (some 409) = .ok s := by
  simp [applyCreate, k8sCreate]

theorem applyCreate_fault (k : ResourceKind) (n : String) (s : KubeStore)
    (e : Nat) (he : e ≠ 409) : applyCreate k n s (some e) = .error e := by
  simp [applyCreate, k8sCreate, he]

theorem applyCreate_twice (k : ResourceKind) (n : String) :
    applyCreate k n [] none = .ok [(k, n)]
    ∧ applyCreate k n [(k, n)] none = .ok [(k, n)] := by
  constructor <;> simp [applyCreate, k8sCreate]

end OdooOperator

namespace OdooOperator

/-! ## Theorems settling the claims -/

/-- C1: for every managed object kind (PVC, ConfigMap, Secret, Deployment,
Service, Ingress) the create path treats a store-reported 409 conflict as
success with no mutation, an update-time read reporting 404 falls back to
create, and any other store error propagates as a failure; consequently
applying the same descriptor twice against an empty-then-populated store
never errors and the second apply is a no-op. -/
theorem idempotent_apply_policy (name : String) (s : KubeStore) (e e' : Nat)
    (fc : Fault) (he : e ≠ 409) (he' : e' ≠ 404) :
    (create_filestore_pvc name s (some 409) = .ok s
      ∧ create_config_map name s (some 409) = .ok s
      ∧ create_db_credentials_secret_apply name s (some 409) = .ok s
      ∧ create_deployment_apply name s (some 409) = .ok s
      ∧ create_service_apply name s (some 409) = .ok s
      ∧ create_ingress_apply name s (some 409) = .ok s)
    ∧ (create_filestore_pvc name s (some e) = .error e
      ∧ create_config_map name s (some e) = .error e
      ∧ create_db_credentials_secret_apply name s (some e) = .error e
      ∧ create_deployment_apply name s (some e) = .error e
      ∧ create_service_apply name s (some e) = .error e
      ∧ create_ingress_apply name s (some e) = .error e)
    ∧ (update_config_map name s (some 404) none fc = create_config_map name s fc
      ∧ update_deployment name s (some 404) none fc = create_deployment_apply name s fc
      ∧ update_service name s (some 404) fc = create_service_apply name s fc
      ∧ update_ingress name s (some 404) none fc = create_ingress_apply name s fc)
    ∧ (update_config_map name s (some e') none none = .error e'
      ∧ update_deployment name s (some e') none none = .error e'
      ∧ update_service name s (some e') none = .error e'
      ∧ update_ingress name s (some e') none none = .error e')
    ∧ ((∃ s₁, create_filestore_pvc name [] none = .ok s₁
          ∧ create_filestore_pvc name s₁ none = .ok s₁)
      ∧ (∃ s₁, create_config_map name [] none = .ok s₁
          ∧ create_config_map name s₁ none = .ok s₁)
      ∧ (∃ s₁, create_db_credentials_secret_apply name [] none = .ok s₁
          ∧ create_db_credentials_secret_apply name s₁ none = .ok s₁)
      ∧ (∃ s₁, create_deployment_apply name [] none = .ok s₁
          ∧ create_deployment_apply name s₁ none = .ok s₁)
      ∧ (∃ s₁, create_service_apply name [] none = .ok s₁
          ∧ create_service_apply name s₁ none = .ok s₁)
      ∧ (∃ s₁, create_ingress_apply name [] none = .ok s₁
          ∧ create_ingress_apply name s₁ none = .ok s₁)) := by
  refine ⟨⟨?_, ?_, ?_, ?_, ?_, ?_⟩, ⟨?_, ?_, ?_, ?_, ?_, ?_⟩, ⟨?_, ?_, ?_, ?_⟩,
    ⟨?_, ?_, ?_, ?_⟩, ?_, ?_, ?_, ?_, ?_, ?_⟩
  · exact applyCreate_conflict _ _ _
  · exact applyCreate_conflict _ _ _
  · exact applyCreate_conflict _ _ _
  · exact applyCreate_conflict _ _ _
  · exact applyCreate_conflict _ _ _
  · exact applyCreate_conflict _ _ _
  · exact applyCreate_fault _ _ _ _ he
  · exact applyCreate_fault _ _ _ _ he
  · exact applyCreate_fault _ _ _ _ he
  · exact applyCreate_fault _ _ _ _ he
  · exact applyCreate_fault _ _ _ _ he
  · exact applyCreate_fault _ _ _ _ he
  · simp [update_config_map, k8sRead]
  · simp [update_deployment, k8sRead]
  · simp [update_service, k8sRead]
  · simp [update_ingress, k8sRead]
  · simp [update_config_map, k8sRead, he']
  · simp [update_deployment, k8sRead, he']
  · simp [update_service, k8sRead, he']
  · simp [update_ingress, k8sRead, he']
  · exact ⟨_, (applyCreate_twice _ _).1, (applyCreate_twice _ _).2⟩
  · exact ⟨_, (applyCreate_twice _ _).1, (applyCreate_twice _ _).2⟩
  · exact ⟨_, (applyCreate_twice _ _).1, (applyCreate_twice _ _).2⟩
  · exact ⟨_, (applyCreate_twice _ _).1, (applyCreate_twice _ _).2⟩
  · exact ⟨_, (applyCreate_twice _ _).1, (applyCreate_twice _ _).2⟩
  · exact ⟨_, (applyCreate_twice _ _).1, (applyCreate_twice _ _).2⟩

/-- Closed witness for `idempotent_apply_policy` at name "a", an empty store,
and injected fault statuses 500 (create) and 500 (update read). -/
theorem idempotent_apply_policy_witness :
    create_config_map "a" [] (some 409) = .ok []
    ∧ update_config_map "a" [] (some 500) none none = .error 500 := by
  have h := idempotent_apply_policy "a" [] 500 500 none (by decide) (by decide)
  exact ⟨h.1.2.1, h.2.2.2.1.1⟩

/-- C2 fails on the code: the `create_ingress` actually executed (the later
of the two same-named definitions) has no hostname gate, so with ingress
enabled and no hostname it synthesizes ONE Ingress with a null rule host and
a TLS entry whose host list is `[null]`, and logs no warning — only the
silently shadowed earlier definition skips synthesis with the non-fatal
warning.  The positive case (hostname `app.example.com`, tls=true → one
Ingress with one TLS entry whose host list is exactly that hostname) does
hold for the effective definition. -/
theorem ingress_gating_bug :
    create_ingress "app" { hostname := none } =
      [{ name := "app", ruleHost := none,
         tls := [{ hosts := [none], secretName := "app-tls" }] }]
    ∧ create_ingress_shadowed "app" { hostname := none } =
      ([], ["Ingress hostname not specified for app, skipping ingress creation"])
    ∧ (create_ingress "app" { hostname := some "app.example.com", tls := true }).length = 1
    ∧ (create_ingress "app" { hostname := some "app.example.com", tls := true }).map
        (fun i => i.tls.map (fun t => t.hosts)) = [[[some "app.example.com"]]]
    ∧ (create_ingress_shadowed "app"
        { hostname := some "app.example.com", tls := true }).1.map
        (fun i => i.tls.map (fun t => t.hosts)) = [[[some "app.example.com"]]] := by
  refine ⟨rfl, rfl, rfl, rfl, rfl⟩

/-- C3 fails on the code: the `create_deployment` actually executed (the
later of the two same-named definitions) sets the container environment to
exactly `spec.env` — no database-connection references, no admin-password
reference, no overlay.  Only the silently shadowed earlier definition builds
the six base entries and overlays the custom entries (shown here at a
concrete input: the custom `ODOO_DB_HOST` removes the base entry and is
appended after the remaining five, yielding exactly one `ODOO_DB_HOST` with
the custom value). -/
theorem deployment_env_overlay_bug :
    create_deployment_env (some [{ name := "ODOO_DB_HOST", value := some "custom-host" }]) =
      [{ name := "ODOO_DB_HOST", value := some "custom-host" }]
    ∧ create_deployment_env none = []
    ∧ create_deployment_env_shadowed "inst" none none
        [{ name := "ODOO_DB_HOST", value := some "custom-host" }] =
      [ { name := "ODOO_DB_PORT", secretKeyRef := some ("odoo-db-credentials-inst", "port") },
        { name := "ODOO_DB_USER", secretKeyRef := some ("odoo-db-credentials-inst", "username") },
        { name := "ODOO_DB_PASSWORD",
          secretKeyRef := some ("odoo-db-credentials-inst", "password") },
        { name := "ODOO_DB_NAME", secretKeyRef := some ("odoo-db-credentials-inst", "database") },
        { name := "ODOO_ADMIN_PASSWORD",
          secretKeyRef := some ("odoo-admin-credentials", "admin-password") },
        { name := "ODOO_DB_HOST", value := some "custom-host" } ]
    ∧ ((create_deployment_env_shadowed "inst" none none
        [{ name := "ODOO_DB_HOST", value := some "custom-host" }]).filter
          (fun e => e.name = "ODOO_DB_HOST")) =
      [{ name := "ODOO_DB_HOST", value := some "custom-host" }] := by
  refine ⟨rfl, rfl, ?_, ?_⟩ <;> decide

/-- C4 fails on the code: because `mutate_odoo_instance` mutates the request
object in place and returns that same object, the webhook's
`jsonpatch.make_patch(instance, mutated_instance)` diffs the defaulted
document against itself and always yields the empty patch; applying the
returned patch to the original leaves it undefaulted (here: `spec` still
absent, so no `replicas=1`, no `ingress.tls`, no resources block), even
though the defaulted form itself, and the patch the source meant to compute
(diff of original vs defaulted), are both correct. -/
theorem mutating_webhook_patch_bug :
    mutate_odoo_instance_webhook_patch {} = []
    ∧ apply_patch (mutate_odoo_instance_webhook_patch {}) {} = ({} : OdooInstanceAdm)
    ∧ ({} : OdooInstanceAdm).spec = none
    ∧ (mutate_odoo_instance {}).spec =
        some { replicas := some 1, ingress := some { tls := some true },
               resources := some defaultResources }
    ∧ make_patch {} (mutate_odoo_instance {}) ≠ []
    ∧ apply_patch (make_patch {} (mutate_odoo_instance {})) {} = mutate_odoo_instance {} := by
  refine ⟨rfl, rfl, rfl, rfl, ?_, ?_⟩ <;> decide

/-- C5 fails on the code: `create_database_user` unconditionally resets the
role's password on a repeat provisioning call, but the final
`create_db_credentials_secret` only CREATEs the secret and skips on 409, so
after the second call (rotation to "p2") the role holds "p2" while the
mirrored secret still holds "p1" — the secret is not authoritative.  (The
first call does end by writing all five individually-encoded keys.) -/
theorem credential_secret_not_authoritative_bug :
    (create_database_user "a" "ns" "p1" {} []).1.roles = [("odoo_user_ns_a", "p1")]
    ∧ (create_database_user "a" "ns" "p1" {} []).2.1 =
        [("odoo-db-credentials-a",
          { host := "postgres", port := "5432", username := "odoo_user_ns_a",
            password := "p1", database := some "odoo_ns_a" })]
    ∧ (create_database_user "a" "ns" "p2"
        (create_database_user "a" "ns" "p1" {} []).1
        (create_database_user "a" "ns" "p1" {} []).2.1).1.roles =
        [("odoo_user_ns_a", "p2")]
    ∧ (create_database_user "a" "ns" "p2"
        (create_database_user "a" "ns" "p1" {} []).1
        (create_database_user "a" "ns" "p1" {} []).2.1).2.1 =
        [("odoo-db-credentials-a",
          { host := "postgres", port := "5432", username := "odoo_user_ns_a",
            password := "p1", database := some "odoo_ns_a" })]
    ∧ ("p1" : String) ≠ "p2" := by
  refine ⟨?_, ?_, ?_, ?_, ?_⟩ <;> decide

/-- C6: a successful update call transitions the stored status from any
prior phase to Running with ready=true; an update call whose store apply
fails transitions it to Failed with the failure message populated while
ready (and url) keep their pre-call values, because the status is
merge-patched (present keys overwrite, absent keys are preserved). -/
theorem update_phase_transitions (pre : OdooStatus) (ing : Option IngressSpec)
    (e : String) :
    ((update_odoo_instance pre ing (.ok ())).1.phase = some "Running"
      ∧ (update_odoo_instance pre ing (.ok ())).1.ready = some true
      ∧ (update_odoo_instance pre ing (.ok ())).2 =
          .success "Odoo instance updated successfully")
    ∧ ((update_odoo_instance pre ing (.error e)).1.phase = some "Failed"
      ∧ (update_odoo_instance pre ing (.error e)).1.message =
          some ("Error updating resources: " ++ e)
      ∧ (update_odoo_instance pre ing (.error e)).1.ready = pre.ready
      ∧ (update_odoo_instance pre ing (.error e)).1.url = pre.url
      ∧ (update_odoo_instance pre ing (.error e)).2 =
          .permanentError ("Error updating resources: " ++ e)) := by
  simp [update_odoo_instance, patch_status]

/-- C7: for every (instance-name, namespace) pair the derived database name
and username equal the documented `odoo_<namespace>_<instance-name>` /
`odoo_user_<namespace>_<instance-name>` concatenation sliced to 63
characters (hence are deterministic in their inputs), are always a prefix of
that concatenation, never exceed 63 characters on ANY input, agree with the
naive concatenation exactly when it fits, and on every overflowing input are
the proper 63-character prefix — strictly shorter than, and different from,
the naive concatenation whose tail they truncate. -/
theorem db_identity_deterministic_and_bounded (n ns : String) :
    generate_db_name n ns = ⟨("odoo_" ++ ns ++ "_" ++ n).data.take 63⟩
    ∧ generate_db_username n ns = ⟨("odoo_user_" ++ ns ++ "_" ++ n).data.take 63⟩
    ∧ (generate_db_name n ns).length ≤ 63
    ∧ (generate_db_username n ns).length ≤ 63
    ∧ (generate_db_name n ns).data <+: ("odoo_" ++ ns ++ "_" ++ n).data
    ∧ (generate_db_username n ns).data <+: ("odoo_user_" ++ ns ++ "_" ++ n).data
    ∧ (("odoo_" ++ ns ++ "_" ++ n).length ≤ 63 →
        generate_db_name n ns = "odoo_" ++ ns ++ "_" ++ n)
    ∧ (63 < ("odoo_" ++ ns ++ "_" ++ n).length →
        (generate_db_name n ns).length = 63
        ∧ generate_db_name n ns ≠ "odoo_" ++ ns ++ "_" ++ n)
    ∧ (("odoo_user_" ++ ns ++ "_" ++ n).length ≤ 63 →
        generate_db_username n ns = "odoo_user_" ++ ns ++ "_" ++ n)
    ∧ (63 < ("odoo_user_" ++ ns ++ "_" ++ n).length →
        (generate_db_username n ns).length = 63
        ∧ generate_db_username n ns ≠ "odoo_user_" ++ ns ++ "_" ++ n) := by
  refine ⟨rfl, rfl, ?_, ?_, List.take_prefix 63 _, List.take_prefix 63 _, ?_, ?_, ?_, ?_⟩
  · show (("odoo_" ++ ns ++ "_" ++ n).data.take 63).length ≤ 63
    simp [List.length_take]
  · show (("odoo_user_" ++ ns ++ "_" ++ n).data.take 63).length ≤ 63
    simp [List.length_take]
  · intro h
    show (⟨("odoo_" ++ ns ++ "_" ++ n).data.take 63⟩ : String) = _
    exact congrArg String.mk (List.take_of_length_le h)
  · intro h
    have hlen : (generate_db_name n ns).length = 63 := by
      show (("odoo_" ++ ns ++ "_" ++ n).data.take 63).length = 63
      have h' : 63 < ("odoo_" ++ ns ++ "_" ++ n).data.length := h
      rw [List.length_take]
      omega
    refine ⟨hlen, fun heq => ?_⟩
    have hl := congrArg String.length heq
    rw [hlen] at hl
    omega
  · intro h
    show (⟨("odoo_user_" ++ ns ++ "_" ++ n).data.take 63⟩ : String) = _
    exact congrArg String.mk (List.take_of_length_le h)
  · intro h
    have hlen : (generate_db_username n ns).length = 63 := by
      show (("odoo_user_" ++ ns ++ "_" ++ n).data.take 63).length = 63
      have h' : 63 < ("odoo_user_" ++ ns ++ "_" ++ n).data.length := h
      rw [List.length_take]
      omega
    refine ⟨hlen, fun heq => ?_⟩
    have hl := congrArg String.length heq
    rw [hlen] at hl
    omega

/-- Closed witness for `db_identity_deterministic_and_bounded`, exercising
both regimes: the spec's fitting example ("myinst", "ns") comes back
untruncated and within bound, and a 70-character instance name overflows,
with the derived name cut to exactly 63 characters and differing from the
naive concatenation. -/
theorem db_identity_deterministic_and_bounded_witness :
    generate_db_name "myinst" "ns" = "odoo_ns_myinst"
    ∧ (generate_db_name "myinst" "ns").length ≤ 63
    ∧ (generate_db_name
        "aaaaaaaaaaaaaaaaaaaaaaaaaaaaaaaaaaaaaaaaaaaaaaaaaaaaaaaaaaaaaaaaaaaaaa"
        "ns").length = 63
    ∧ generate_db_name
        "aaaaaaaaaaaaaaaaaaaaaaaaaaaaaaaaaaaaaaaaaaaaaaaaaaaaaaaaaaaaaaaaaaaaaa"
        "ns" ≠
      "odoo_" ++ "ns" ++ "_" ++
        "aaaaaaaaaaaaaaaaaaaaaaaaaaaaaaaaaaaaaaaaaaaaaaaaaaaaaaaaaaaaaaaaaaaaaa" := by
  obtain ⟨-, -, h3, -, -, -, h7, -, -, -⟩ :=
    db_identity_deterministic_and_bounded "myinst" "ns"
  obtain ⟨-, -, -, -, -, -, -, h8, -, -⟩ :=
    db_identity_deterministic_and_bounded
      "aaaaaaaaaaaaaaaaaaaaaaaaaaaaaaaaaaaaaaaaaaaaaaaaaaaaaaaaaaaaaaaaaaaaaa" "ns"
  exact ⟨h7 (by decide), h3, (h8 (by decide)).1, (h8 (by decide)).2⟩

/-- C8 fails on the code as an "exactly when": the three scenario inputs
behave as claimed ({} rejected over version, replicas=0 rejected over
replicas, bare version accepted), but because `operator.py` never imports
`re`, a well-formed memory limit such as "4Gi" — which the claimed
numeric-with-unit-suffix pattern accepts — raises
`NameError: name 're' is not defined` inside `validate_odoo_instance`, and
the webhook turns that into a rejection. -/
theorem admission_validation_bug :
    validate_odoo_instance {} = .reject "'version' is required in the OdooInstance spec"
    ∧ validate_odoo_instance { spec := some { version := some "17.0", replicas := some 0 } } =
        .reject "'replicas' must be at least 1"
    ∧ validate_odoo_instance { spec := some { version := some "17.0" } } = .accept
    ∧ validate_odoo_instance
        { spec := some { version := some "17.0",
                         resources := some { limits := some { memory := some "4Gi" } } } } =
        .pyError "name 're' is not defined"
    ∧ (validate_odoo_instance_webhook
        { spec := some { version := some "17.0",
                         resources := some { limits := some { memory := some "4Gi" } } } }).1 =
        false := by
  refine ⟨?_, ?_, ?_, ?_, ?_⟩ <;> decide

/-- C9: whatever the outcome of the external database cleanup — including an
unreachable database server — the delete handler returns the success result;
a cleanup failure is observable only through logged warnings, never through
the returned result or a raised error. -/
theorem delete_resilience (r : Except String Unit) (e : String) :
    (delete_odoo_instance r).1 = .success "Odoo instance deleted successfully"
    ∧ (delete_odoo_instance (.error e)).1 = .success "Odoo instance deleted successfully"
    ∧ (delete_odoo_instance (.error e)).2 ≠ [] := by
  refine ⟨?_, by simp [delete_odoo_instance], by simp [delete_odoo_instance]⟩
  cases r <;> simp [delete_odoo_instance]

/-- C10: the derivation is not injective even without truncation: the
distinct pairs (namespace `a_b`, name `c`) and (namespace `a`, name `b_c`)
are both far below the 63-character limit yet derive the same database name
`odoo_a_b_c` and the same username `odoo_user_a_b_c`, because `_` is both
the separator and an allowed input character. -/
theorem db_identity_not_injective :
    (("a_b", "c") : String × String) ≠ ("a", "b_c")
    ∧ generate_db_name "c" "a_b" = generate_db_name "b_c" "a"
    ∧ generate_db_name "c" "a_b" = "odoo_a_b_c"
    ∧ generate_db_username "c" "a_b" = generate_db_username "b_c" "a"
    ∧ generate_db_username "c" "a_b" = "odoo_user_a_b_c"
    ∧ ("odoo_" ++ "a_b" ++ "_" ++ "c").length ≤ 63
    ∧ ("odoo_" ++ "a" ++ "_" ++ "b_c").length ≤ 63
    ∧ ("odoo_user_" ++ "a_b" ++ "_" ++ "c").length ≤ 63
    ∧ ("odoo_user_" ++ "a" ++ "_" ++ "b_c").length ≤ 63 := by
  refine ⟨by decide, ?_, ?_, ?_, ?_, by decide, by decide, by decide, by decide⟩ <;> decide

end OdooOperator
